import Mathlib

/-!
# Verification of the provider-adaptation gateway (genai-be)

Shallow embedding of the gateway's routing, reconciliation, content-coercion
and response-extraction logic, translated from the TypeScript source
(`gemini.service.ts`, `gemini.controller.ts`, `lmstudio.service.ts`,
`lmstudio.controller.ts`), together with theorems settling the frozen claims
about the natural-language specification.

Conventions of the embedding:
* JavaScript strings become Lean `String`; `undefined`/absent fields become
  `Option`.
* `String.prototype.trim()` is modelled by `jsTrim` (drop whitespace from both
  ends of the character list).
* JavaScript truthiness on strings (`if (s)`) is emptiness (`s ≠ ""`); the
  `||` / `??` operators become `jsOrStr` / `Option.orElse`.
* Thrown `BadRequestException` / `InternalServerErrorException` become the
  `HttpError` inductive carried in `Except`.
* `Buffer`s become `List Nat` of byte values; `buffer.toString('base64')` is
  `base64EncodeChars`.
-/

/-- Whitespace trim over a character list: drop leading whitespace, then drop
trailing whitespace (model of JS `String.prototype.trim`). -/
def trimChars (l : List Char) : List Char :=
  (((l.dropWhile Char.isWhitespace).reverse.dropWhile Char.isWhitespace)).reverse

/-- Model of JS `s.trim()`. -/
def jsTrim (s : String) : String :=
  String.mk (trimChars s.data)

/-- Model of JS `s.toLowerCase()`: character-wise lower-casing (the inputs
compared by the routing logic are ASCII provider identifiers). -/
def jsToLower (s : String) : String :=
  String.mk (s.data.map Char.toLower)

/-- Model of JS `a || b` when `a` is a possibly-absent string and `b` a
string: the first operand wins when it is truthy (present and non-empty). -/
def jsOrStr (a : Option String) (b : String) : String :=
  match a with
  | some s => if s ≠ "" then s else b
  | none => b

/-- Model of JS `a || b` on two possibly-absent strings. -/
def jsOrOpt (a b : Option String) : Option String :=
  match a with
  | some s => if s ≠ "" then some s else b
  | none => b

/-- JS truthiness of a possibly-absent string. -/
def optTruthy (o : Option String) : Bool :=
  match o with
  | some s => s ≠ ""
  | none => false

/-- Whether `pat` occurs as a contiguous segment of `l`. -/
def hasSegmentChars (pat : List Char) : List Char → Bool
  | [] => pat.isEmpty
  | c :: rest => pat.isPrefixOf (c :: rest) || hasSegmentChars pat rest

/-- Whether `pat` occurs in `s` as a contiguous substring. -/
def hasSubstring (s pat : String) : Bool :=
  hasSegmentChars pat.data s.data

deriving instance DecidableEq for Except

/-! ## Data model (DTO shapes shared by both providers) -/

/-- Role of an inbound chat message (`'user' | 'assistant' | 'system'`). -/
inductive Role
  | user
  | assistant
  | system
deriving DecidableEq, BEq, Repr

/-- `ChatMessageDto`: one entry of the inbound `messages` array. -/
structure ChatMessageDto where
  role : Role
  content : String
deriving DecidableEq, Repr

/-- `ChatRequestDto`: the unified chat payload handed to a service. -/
structure ChatRequestDto where
  prompt : Option String
  messages : Option (List ChatMessageDto)
  model : Option String
  systemInstruction : Option String
deriving DecidableEq, Repr

/-- Normalized HTTP failure surfaced across the core/boundary edge:
`badRequest` models `BadRequestException` (a 400 client error),
`internalServerError` models `InternalServerErrorException` (a 500 server
error). -/
inductive HttpError
  | badRequest (msg : String)
  | internalServerError (msg : String)
deriving DecidableEq, Repr

/-- `ProviderResult`: `{model, text}` where `text = none` models JS
`undefined`. -/
structure ProviderResult where
  model : String
  text : Option String
deriving DecidableEq, Repr

namespace GeminiService

/-! ## GeminiService (cloud adapter), from `gemini.service.ts` -/

/-- Turn-role of a Gemini history entry (`'user' | 'model'`). -/
inductive TurnRole
  | user
  | model
deriving DecidableEq, BEq, Repr

/-- One part of a Gemini `ChatContent` (`{ text: string }`). -/
structure TextPart where
  text : String
deriving DecidableEq, Repr

/-- `ChatContent`: one reconciled turn sent to the Gemini session. -/
structure ChatContent where
  role : TurnRole
  parts : List TextPart
deriving DecidableEq, Repr

/-- Loop body of `GeminiService.mapMessagesToHistory`: walk the messages in
order carrying the `history` and `instructions` accumulators (the source
mutates an `instructions` array in place; here it is threaded explicitly). -/
def mapMessagesToHistoryAux :
    List ChatMessageDto → List ChatContent → List String →
      List ChatContent × List String
  | [], history, instructions => (history, instructions)
  | m :: rest, history, instructions =>
    let text := jsTrim m.content
    if text = "" then
      mapMessagesToHistoryAux rest history instructions
    else
      match m.role with
      | Role.system => mapMessagesToHistoryAux rest history (instructions ++ [text])
      | Role.assistant =>
          mapMessagesToHistoryAux rest
            (history ++ [⟨TurnRole.model, [⟨text⟩]⟩]) instructions
      | Role.user =>
          mapMessagesToHistoryAux rest
            (history ++ [⟨TurnRole.user, [⟨text⟩]⟩]) instructions

/-- `GeminiService.mapMessagesToHistory(messages, instructions)`: returns the
built history together with the final state of the `instructions` array. -/
def mapMessagesToHistory (messages : List ChatMessageDto)
    (instructions : List String) : List ChatContent × List String :=
  mapMessagesToHistoryAux messages [] instructions

/-- `GeminiService.firstTextPart(content)`: first part whose text is a
non-blank string, returned untrimmed. -/
def firstTextPart (content : ChatContent) : Option String :=
  (content.parts.find? (fun p => jsTrim p.text ≠ "")).map TextPart.text

/-- Result shape of `prepareChatPayload`. -/
structure ChatPayload where
  promptToSend : String
  historyForSession : List ChatContent
deriving DecidableEq, Repr

/-- `GeminiService.prepareChatPayload(prompt, history)`: trims the prompt; if
it is empty and the last history entry is a user turn with a non-blank text
part, pops that entry and uses its text as the prompt; throws
`'prompt is required (string)'` when no prompt results. -/
def prepareChatPayload (prompt : String) (history : List ChatContent) :
    Except String ChatPayload :=
  let promptToSend := jsTrim prompt
  let popped : String × List ChatContent :=
    if promptToSend = "" ∧ history ≠ [] then
      match history.getLast? with
      | some last =>
        if last.role = TurnRole.user then
          match firstTextPart last with
          | some lastText => (lastText, history.dropLast)
          | none => (promptToSend, history)
        else (promptToSend, history)
      | none => (promptToSend, history)
    else (promptToSend, history)
  if popped.1 = "" then Except.error "prompt is required (string)"
  else Except.ok ⟨popped.1, popped.2⟩

/-- `GeminiService.combineInstructions(instructions)`: trim each entry, drop
blanks, join with a blank line; `undefined` when nothing remains. -/
def combineInstructions (instructions : List String) : Option String :=
  let cleaned := (instructions.map jsTrim).filter (fun s => s ≠ "")
  if cleaned = [] then none
  else some (String.intercalate "\n\n" cleaned)

/-- Raw Gemini response as seen by `extractText`: each field holds the string
found at one probed location (`none` models absence / a non-callable
accessor). -/
structure GeminiRaw where
  output_text : Option String
  responseTextCall : Option String
  textCall : Option String
  candidateText : Option String
  responseCandidateText : Option String
deriving DecidableEq, Repr

/-- `GeminiService.extractText(result)`: the `??` probe chain over
`output_text`, `response.text()`, `text()`, `candidates[0]...text`,
`response.candidates[0]...text`; `none` when every probe misses. -/
def extractText (result : GeminiRaw) : Option String :=
  (((result.output_text.orElse fun _ => result.responseTextCall).orElse
      fun _ => result.textCall).orElse
      fun _ => result.candidateText).orElse
      fun _ => result.responseCandidateText

/-- The `{ model: modelName, text }` result built by `GeminiService.chat` /
`generateText` after a structurally successful provider call. -/
def extractedResult (modelName : String) (raw : GeminiRaw) : ProviderResult :=
  ⟨modelName, extractText raw⟩

/-- Which SDK surface the adapter committed to (`this.clientMode`). -/
inductive ClientMode
  | genai
  | generativeAi
deriving DecidableEq, Repr

/-- The constructed client handle, tagged by which probe built it. -/
inductive ClientHandle
  | genaiCtor
  | genaiFactory
  | legacyCtor
deriving DecidableEq, Repr

/-- Outcome of a dynamic `import(...)` of an SDK package. -/
inductive ImportOutcome (α : Type)
  | loaded (modShape : α)
  | failed (msg : String)
deriving DecidableEq, Repr

/-- Shape of a loaded `@google/genai` module: whether a supported constructor
(`GoogleAI`/`GoogleGenAI`/`default`/`Client`) or factory
(`createClient`/`createGoogleAIClient`) export is a function. -/
structure GenaiModule where
  hasCtor : Bool
  hasFactory : Bool
deriving DecidableEq, Repr

/-- Shape of a loaded `@google/generative-ai` module: whether
`GoogleGenerativeAI` (or `default`) is a function. -/
structure LegacyModule where
  hasCtorFunction : Bool
deriving DecidableEq, Repr

/-- Process environment and module-resolution state visible to
`ensureClient`. -/
structure SdkEnv where
  geminiApiKey : Option String
  googleApiKey : Option String
  genaiImport : ImportOutcome GenaiModule
  legacyImport : ImportOutcome LegacyModule

/-- The adapter's mutable fields `this.client` / `this.clientMode`. -/
structure ClientState where
  client : Option ClientHandle
  clientMode : Option ClientMode
deriving DecidableEq, Repr

/-- The freshly constructed adapter (`client = null`, `clientMode = null`). -/
def ClientState.initial : ClientState := ⟨none, none⟩

/-- Second half of `GeminiService.ensureClient`: the fallback attempt on the
legacy `@google/generative-ai` SDK surface; on total failure the thrown
message names both packages and carries the legacy attempt's message. -/
def tryLegacyClient (env : SdkEnv) : Except HttpError ClientState :=
  match env.legacyImport with
  | ImportOutcome.loaded m =>
    if m.hasCtorFunction then
      Except.ok ⟨some ClientHandle.legacyCtor, some ClientMode.generativeAi⟩
    else
      Except.error (HttpError.internalServerError
        ("Failed to initialize Gemini client from either @google/genai or @google/generative-ai: "
          ++ "Unexpected export shape for @google/generative-ai"))
  | ImportOutcome.failed msg =>
    Except.error (HttpError.internalServerError
      ("Failed to initialize Gemini client from either @google/genai or @google/generative-ai: "
        ++ msg))

/-- `GeminiService.ensureClient()`: memoized client acquisition. Returns the
adapter state after the call (unchanged when a client already exists; the
thrown exception otherwise leaves the fields untouched, which `Except.error`
models since no new state is produced). -/
def ensureClient (env : SdkEnv) (st : ClientState) : Except HttpError ClientState :=
  if st.client.isSome then Except.ok st
  else
    let apiKey := jsOrOpt env.geminiApiKey env.googleApiKey
    if ¬ optTruthy apiKey then
      Except.error (HttpError.internalServerError
        "Missing GEMINI_API_KEY (or GOOGLE_API_KEY) in environment")
    else
      match env.genaiImport with
      | ImportOutcome.loaded m =>
        if m.hasCtor then
          Except.ok ⟨some ClientHandle.genaiCtor, some ClientMode.genai⟩
        else if m.hasFactory then
          Except.ok ⟨some ClientHandle.genaiFactory, some ClientMode.genai⟩
        else tryLegacyClient env
      | ImportOutcome.failed _ => tryLegacyClient env

end GeminiService

namespace GeminiController

/-! ## GeminiController (boundary + router), from `gemini.controller.ts` -/

/-- Request body of `POST /api/chat`: `ChatRequestDto & { provider?: string }`. -/
structure ChatBody where
  prompt : Option String
  messages : Option (List ChatMessageDto)
  model : Option String
  systemInstruction : Option String
  provider : Option String
deriving DecidableEq, Repr

/-- `GeminiController.shouldUseLmStudio(provider)`: lower-cased explicit
selector wins when truthy; otherwise the `DEFAULT_PROVIDER` environment
variable decides. -/
def shouldUseLmStudio (provider : Option String)
    (defaultProviderEnv : Option String) : Bool :=
  match provider.map jsToLower with
  | some p =>
    if p ≠ "" then p = "lmstudio"
    else defaultProviderEnv.map jsToLower = some "lmstudio"
  | none => defaultProviderEnv.map jsToLower = some "lmstudio"

/-- Prompt resolution of `chatWithGemini`: the trimmed explicit prompt, else
the trimmed content of the last user-role message (the `find` over the
reversed array also requires `typeof content === 'string'`, which the typed
embedding makes vacuous). -/
def resolveEffectivePrompt (body : ChatBody) : String :=
  let trimmedPrompt := match body.prompt with
    | some p => jsTrim p
    | none => ""
  if trimmedPrompt ≠ "" then trimmedPrompt
  else
    match body.messages with
    | some ms =>
      match ms.reverse.find? (fun m => m.role == Role.user) with
      | some lastUserMessage =>
        if lastUserMessage.content ≠ "" then jsTrim lastUserMessage.content
        else trimmedPrompt
      | none => trimmedPrompt
    | none => trimmedPrompt

/-- The forwarded service call chosen by the controller: which adapter, and
the `ChatRequestDto` it receives. -/
structure Dispatch where
  useLm : Bool
  request : ChatRequestDto
deriving DecidableEq, Repr

/-- `GeminiController.chatWithGemini(body)` up to the adapter call: resolve
the effective prompt, reject with `BadRequestException` when none, otherwise
dispatch to exactly one of the two services with the rebuilt request. -/
def chatWithGemini (body : ChatBody) (defaultProviderEnv : Option String) :
    Except HttpError Dispatch :=
  let effectivePrompt := resolveEffectivePrompt body
  if effectivePrompt = "" then
    Except.error (HttpError.badRequest "prompt is required (string)")
  else
    Except.ok
      ⟨shouldUseLmStudio body.provider defaultProviderEnv,
       ⟨some effectivePrompt, body.messages, body.model, body.systemInstruction⟩⟩

end GeminiController

namespace LmStudioController

/-! ## LmStudioController boundary guard, from `lmstudio.controller.ts` -/

/-- `LmStudioController.ensureProviderIsLmStudio(provider)`: accept an absent
or empty (falsy) selector; reject any other selector that does not
lower-case to `"lmstudio"` with a `BadRequestException`. -/
def ensureProviderIsLmStudio (provider : Option String) : Except HttpError Unit :=
  match provider with
  | none => Except.ok ()
  | some p =>
    if p = "" then Except.ok ()
    else if jsToLower p ≠ "lmstudio" then
      Except.error (HttpError.badRequest
        "Invalid provider for this route: expected \"lmstudio\".")
    else Except.ok ()

end LmStudioController

namespace LmStudioService

/-! ## LmStudioService (local adapter), from `lmstudio.service.ts` -/

/-- One OpenAI-style chat message `{ role: string; content: string }` as sent
to the local provider. -/
structure LmMessage where
  role : String
  content : String
deriving DecidableEq, Repr

/-- Map one inbound role to the outbound role string, as in
`composeChatMessages`. -/
def mapRole (r : Role) : String :=
  match r with
  | Role.assistant => "assistant"
  | Role.system => "system"
  | Role.user => "user"

/-- The placeholder user message appended when no user message is present. -/
def placeholderUserMessage : LmMessage :=
  ⟨"user", "Please respond to the conversation above."⟩

/-- Loop body of the prior-conversation mapping in `composeChatMessages`:
skip blank entries, keep the rest with the mapped role string. -/
def mapHistoryEntry (m : ChatMessageDto) : Option LmMessage :=
  let content := jsTrim m.content
  if content = "" then none
  else some ⟨mapRole m.role, content⟩

/-- The leading system message pushed by `composeChatMessages` when the
instruction is non-blank. -/
def systemInstructionMessages (systemInstruction : Option String) :
    List LmMessage :=
  match systemInstruction with
  | some s => if jsTrim s ≠ "" then [⟨"system", jsTrim s⟩] else []
  | none => []

/-- The trailing user message pushed by `composeChatMessages` when the
latest prompt is non-blank. -/
def latestPromptMessages (latestPrompt : Option String) : List LmMessage :=
  match latestPrompt with
  | some p => if jsTrim p ≠ "" then [⟨"user", jsTrim p⟩] else []
  | none => []

/-- `composeChatMessages` before the ensure-at-least-one-user-message step:
optional trimmed system instruction, then the non-blank history entries with
mapped roles, then the trimmed latest prompt as a user message. -/
def composeChatMessagesBase (history : List ChatMessageDto)
    (systemInstruction : Option String) (latestPrompt : Option String) :
    List LmMessage :=
  systemInstructionMessages systemInstruction
    ++ history.filterMap mapHistoryEntry
    ++ latestPromptMessages latestPrompt

/-- `LmStudioService.composeChatMessages(history, systemInstruction,
latestPrompt)`: the base list, plus the placeholder user message when no user
message is present (the source re-checks that the last entry is not a user
message before pushing). -/
def composeChatMessages (history : List ChatMessageDto)
    (systemInstruction : Option String) (latestPrompt : Option String) :
    List LmMessage :=
  let messages := composeChatMessagesBase history systemInstruction latestPrompt
  if messages.any (fun m => m.role == "user") then messages
  else
    match messages.getLast? with
    | some last =>
      if last.role ≠ "user" then messages ++ [placeholderUserMessage]
      else messages
    | none => messages ++ [placeholderUserMessage]

/-- Message list `LmStudioService.chat` posts to `/v1/chat/completions`
(`request.messages ?? []`). -/
def chatSentMessages (request : ChatRequestDto) : List LmMessage :=
  composeChatMessages (request.messages.getD []) request.systemInstruction
    request.prompt

/-- Base64 alphabet used by `Buffer.toString('base64')`. -/
def base64Alphabet : List Char :=
  "ABCDEFGHIJKLMNOPQRSTUVWXYZabcdefghijklmnopqrstuvwxyz0123456789+/".data

/-- One base64 digit. -/
def b64Digit (n : Nat) : Char :=
  base64Alphabet.getD n 'A'

/-- Standard padded base64 encoding of a byte sequence, three bytes at a
time (model of `buffer.toString('base64')`). -/
def base64EncodeChars : List Nat → List Char
  | [] => []
  | [a] => [b64Digit (a / 4), b64Digit (a % 4 * 16), '=', '=']
  | [a, b] => [b64Digit (a / 4), b64Digit (a % 4 * 16 + b / 16),
               b64Digit (b % 16 * 4), '=']
  | a :: b :: c :: rest =>
      [b64Digit (a / 4), b64Digit (a % 4 * 16 + b / 16),
       b64Digit (b % 16 * 4 + c / 64), b64Digit (c % 64)]
        ++ base64EncodeChars rest

/-- `{ inlineData: { data, mimeType } }` part shape. -/
structure InlineData where
  data : Option String
  mimeType : Option String
deriving DecidableEq, Repr

/-- A heterogeneous generation part as the services see it: an optional text
field and an optional inline-data field. -/
structure GenPart where
  text : Option String
  inlineData : Option InlineData
deriving DecidableEq, Repr

/-- `LmStudioService.buildInlineDataPart(buffer, mimeType)`: base64-encode
the byte buffer into the `inlineData.data` string. -/
def buildInlineDataPart (buffer : List Nat) (mimeType : String) : GenPart :=
  ⟨none, some ⟨some (String.mk (base64EncodeChars buffer)), some mimeType⟩⟩

/-- The placeholder line emitted for a non-text part in
`coercePartsToText`: mime defaults to `application/octet-stream` when falsy,
and the byte count is the length of the `inlineData.data` string when it is a
string, else 0. -/
def coerceBinaryLine (p : GenPart) : String :=
  let mime := jsOrStr (p.inlineData.bind InlineData.mimeType) "application/octet-stream"
  let bytes : Nat := match p.inlineData.bind InlineData.data with
    | some d => d.length
    | none => 0
  "[Attachment: " ++ mime ++ ", " ++ toString bytes
    ++ " bytes; content omitted in local text-only mode]"

/-- The line pushed for one part: the trimmed text when the part has a
non-blank string text, else the attachment placeholder. -/
def coercePartLine (p : GenPart) : String :=
  match p.text with
  | some t => if jsTrim t ≠ "" then jsTrim t else coerceBinaryLine p
  | none => coerceBinaryLine p

/-- `LmStudioService.coercePartsToText(parts)` (the spec's
`renderPartsAsText`): one line per part, blank-separated, with the
`"(no content)"` sentinel for an empty sequence. -/
def coercePartsToText (parts : List GenPart) : String :=
  let lines := parts.map coercePartLine
  if lines.isEmpty then "(no content)"
  else String.intercalate "\n\n" lines

/-- One element of an OpenAI-style content-part array
(`{type?, text?, content?}` as probed). -/
structure LmContentPart where
  text : Option String
  content : Option String
deriving DecidableEq, Repr

/-- The `choice.message.content` value: a plain string, an array of parts,
or an object that may itself hold a `parts` array. -/
inductive LmMessageContent
  | str (s : String)
  | arr (ps : List LmContentPart)
  | obj (parts : Option (List LmContentPart))
deriving DecidableEq, Repr

/-- `choices[i].message` shape. -/
structure LmChoiceMessage where
  content : Option LmMessageContent
deriving DecidableEq, Repr

/-- One `choices[i]` entry (the `text` field is the completion-style
fallback). -/
structure LmChoice where
  message : Option LmChoiceMessage
  text : Option String
deriving DecidableEq, Repr

/-- Raw LM Studio chat-completions response as probed by
`extractChatChoiceText`. -/
structure LmRaw where
  choices : List LmChoice
  output_text : Option String
  text : Option String
deriving DecidableEq, Repr

/-- The mapped text of one content part: `p?.text || p?.content || ''`. -/
def lmPartText (p : LmContentPart) : String :=
  jsOrStr p.text (jsOrStr p.content "")

/-- The final `||` fallback chain of `extractChatChoiceText`:
`output_text || text || choices[0]?.text || ''`. -/
def lmFallbackText (result : LmRaw) : String :=
  jsOrStr result.output_text
    (jsOrStr result.text
      (jsOrStr (result.choices.head?.bind LmChoice.text) ""))

/-- `LmStudioService.extractChatChoiceText(result)`: string content of the
first choice's message, else the joined non-blank part texts, else the
top-level fallback chain ending in `''`. Always returns a string. -/
def extractChatChoiceText (result : LmRaw) : String :=
  let choice := result.choices.head?
  let content := (choice.bind LmChoice.message).bind LmChoiceMessage.content
  match content with
  | some (LmMessageContent.str s) => s
  | _ =>
    let parts : Option (List LmContentPart) :=
      match content with
      | some (LmMessageContent.arr ps) => some ps
      | some (LmMessageContent.obj ps) => ps
      | _ => none
    match parts with
    | some ps =>
      let joined := String.intercalate "\n"
        ((ps.map lmPartText).filter (fun s => jsTrim s ≠ ""))
      if jsTrim joined ≠ "" then joined else lmFallbackText result
    | none => lmFallbackText result

/-- The `{ model: modelName, text }` result built by `LmStudioService.chat`
after a structurally successful provider call: `text` is always a present
string. -/
def extractedResult (modelName : String) (raw : LmRaw) : ProviderResult :=
  ⟨modelName, some (extractChatChoiceText raw)⟩

end LmStudioService

/-! ## Helper lemmas about the JS string model -/

theorem dropWhile_head_not {p : Char → Bool} :
    ∀ {l : List Char} {a : Char}, (l.dropWhile p).head? = some a → p a = false := by
  intro l
  induction l with
  | nil => intro a h; simp [List.dropWhile] at h
  | cons x xs ih =>
    intro a h
    by_cases hx : p x
    · rw [List.dropWhile_cons_of_pos hx] at h
      exact ih h
    · rw [List.dropWhile_cons_of_neg hx] at h
      simp at h
      rw [← h]
      exact Bool.eq_false_iff.mpr hx

theorem dropWhile_eq_self_of_head {p : Char → Bool} {l : List Char}
    (h : ∀ a, l.head? = some a → p a = false) : l.dropWhile p = l := by
  cases l with
  | nil => rfl
  | cons x xs =>
    have hx : p x = false := h x rfl
    exact List.dropWhile_cons_of_neg (by simp [hx])

/-- `trimChars` is idempotent. -/
theorem trimChars_idem (l : List Char) : trimChars (trimChars l) = trimChars l := by
  unfold trimChars
  set p := Char.isWhitespace with hp
  set l1 := l.dropWhile p with hl1
  set r := l1.reverse.dropWhile p with hr
  -- the trimmed list is `r.reverse`; show both dropWhile passes leave it fixed
  have hrev : r.reverse.reverse = r := List.reverse_reverse r
  have hhead : ∀ a, r.reverse.head? = some a → p a = false := by
    intro a ha
    -- r.reverse is a prefix of l1; if nonempty their heads agree
    have hsuff : r <:+ l1.reverse := by
      rw [hr]; exact List.dropWhile_suffix p
    rcases hsuff with ⟨t, ht⟩
    have hl1r : l1 = r.reverse.append t.reverse := by
      have := congrArg List.reverse ht
      simpa [List.reverse_append] using this.symm
    cases hr' : r.reverse with
    | nil => rw [hr'] at ha; simp at ha
    | cons b bs =>
      rw [hr'] at ha
      simp at ha
      -- head of l1 is b, and l1 = dropWhile p l, so p b = false
      have hl1head : l1.head? = some b := by
        rw [hl1r, hr']
        simp [List.head?_append, ha]
      have := dropWhile_head_not (p := p) (l := l) (a := b)
      rw [← hl1] at this
      rw [← ha]
      exact this hl1head
  have h1 : r.reverse.dropWhile p = r.reverse := dropWhile_eq_self_of_head hhead
  have hhead2 : ∀ a, r.head? = some a → p a = false := by
    intro a ha
    exact dropWhile_head_not (p := p) (l := l1.reverse) (by rw [← hr]; exact ha)
  have h2 : r.dropWhile p = r := dropWhile_eq_self_of_head hhead2
  rw [h1, hrev, h2]

theorem jsTrim_idem (s : String) : jsTrim (jsTrim s) = jsTrim s := by
  unfold jsTrim
  rw [show (String.mk (trimChars s.data)).data = trimChars s.data from rfl]
  rw [trimChars_idem]

theorem jsTrim_empty : jsTrim "" = "" := rfl

theorem ne_empty_of_jsTrim_ne_empty {s : String} (h : jsTrim s ≠ "") : s ≠ "" := by
  intro he
  rw [he] at h
  exact h jsTrim_empty

/-! ## Helper lemmas about the Gemini reconciliation -/

/-- Every entry the history accumulator ever receives is either inherited or
a single trimmed non-blank text part. -/
theorem GeminiService.mapMessagesToHistoryAux_mem
    (messages : List ChatMessageDto) :
    ∀ (hist : List GeminiService.ChatContent) (instr : List String)
      (c : GeminiService.ChatContent),
      c ∈ (GeminiService.mapMessagesToHistoryAux messages hist instr).1 →
      c ∈ hist ∨ ∃ t, c.parts = [⟨t⟩] ∧ jsTrim t = t ∧ t ≠ "" := by
  induction messages with
  | nil =>
    intro hist instr c hc
    exact Or.inl hc
  | cons m rest ih =>
    intro hist instr c hc
    rw [GeminiService.mapMessagesToHistoryAux] at hc
    by_cases htext : jsTrim m.content = ""
    · rw [if_pos htext] at hc
      exact ih hist instr c hc
    · rw [if_neg htext] at hc
      have hfresh : ∀ (r : GeminiService.TurnRole),
          c ∈ hist ++ [⟨r, [⟨jsTrim m.content⟩]⟩] →
          c ∈ hist ∨ ∃ t, c.parts = [⟨t⟩] ∧ jsTrim t = t ∧ t ≠ "" := by
        intro r hmem
        rcases List.mem_append.mp hmem with hin | hnew
        · exact Or.inl hin
        · right
          refine ⟨jsTrim m.content, ?_, jsTrim_idem m.content, htext⟩
          rw [List.mem_singleton.mp hnew]
      cases hrole : m.role with
      | system =>
        rw [hrole] at hc
        exact ih hist (instr ++ [jsTrim m.content]) c hc
      | assistant =>
        rw [hrole] at hc
        rcases ih _ instr c hc with hin | hp
        · exact hfresh GeminiService.TurnRole.model hin
        · exact Or.inr hp
      | user =>
        rw [hrole] at hc
        rcases ih _ instr c hc with hin | hp
        · exact hfresh GeminiService.TurnRole.user hin
        · exact Or.inr hp

/-- An entry whose parts are one trimmed non-blank text yields that text as
its first text part. -/
theorem GeminiService.firstTextPart_of_parts {c : GeminiService.ChatContent}
    {t : String} (hp : c.parts = [⟨t⟩]) (ht : jsTrim t = t) (hne : t ≠ "") :
    GeminiService.firstTextPart c = some t := by
  unfold GeminiService.firstTextPart
  rw [hp]
  simp [List.find?, ht, hne]

/-- When the supplied prompt is blank and the history ends with a user turn
holding a non-blank text, `prepareChatPayload` pops that turn and promotes
its text. -/
theorem GeminiService.prepareChatPayload_pop {prompt : String}
    (h : List GeminiService.ChatContent) (last : GeminiService.ChatContent)
    {t : String} (hp : jsTrim prompt = "")
    (hrole : last.role = GeminiService.TurnRole.user)
    (hft : GeminiService.firstTextPart last = some t) (hne : t ≠ "") :
    GeminiService.prepareChatPayload prompt (h ++ [last]) = Except.ok ⟨t, h⟩ := by
  simp only [GeminiService.prepareChatPayload, hp]
  rw [if_pos (show True ∧ h ++ [last] ≠ [] from ⟨trivial, by simp⟩),
    List.getLast?_concat]
  simp [hrole, hft, hne, List.dropLast_concat]

/-- When the trimmed prompt is non-blank, `prepareChatPayload` keeps the
history untouched and sends the trimmed prompt. -/
theorem GeminiService.prepareChatPayload_explicit {prompt : String}
    (history : List GeminiService.ChatContent) (hp : jsTrim prompt ≠ "") :
    GeminiService.prepareChatPayload prompt history =
      Except.ok ⟨jsTrim prompt, history⟩ := by
  unfold GeminiService.prepareChatPayload
  rw [if_neg (by simp [hp])]
  simp [hp]

/-- C1: nextPrompt resolution in the cloud adapter's chat path follows the
tie-break rule. (1) A prompt that is non-empty after trimming is used (in its
trimmed form) as `promptToSend` and the full turn history is kept unchanged.
(2) When the prompt is blank and the history built by `mapMessagesToHistory`
ends with a user turn, that turn is popped and its text becomes
`promptToSend`. (3) The spec's concrete example: messages
`[{user,"hi"},{assistant,"hello"},{user,"how are you"}]` with no prompt give
`promptToSend = "how are you"` and history `[{user,"hi"},{model,"hello"}]`. -/
theorem C1_next_prompt_tiebreak :
    (∀ (prompt : String) (history : List GeminiService.ChatContent),
      jsTrim prompt ≠ "" →
      GeminiService.prepareChatPayload prompt history =
        Except.ok ⟨jsTrim prompt, history⟩)
    ∧ (∀ (prompt : String) (messages : List ChatMessageDto)
        (instructions : List String)
        (h : List GeminiService.ChatContent) (last : GeminiService.ChatContent),
      jsTrim prompt = "" →
      (GeminiService.mapMessagesToHistory messages instructions).1 = h ++ [last] →
      last.role = GeminiService.TurnRole.user →
      ∃ t, last.parts = [⟨t⟩] ∧
        GeminiService.prepareChatPayload prompt (h ++ [last]) = Except.ok ⟨t, h⟩)
    ∧ GeminiService.prepareChatPayload ""
        (GeminiService.mapMessagesToHistory
          [⟨Role.user, "hi"⟩, ⟨Role.assistant, "hello"⟩,
           ⟨Role.user, "how are you"⟩] []).1
        = Except.ok ⟨"how are you",
            [⟨GeminiService.TurnRole.user, [⟨"hi"⟩]⟩,
             ⟨GeminiService.TurnRole.model, [⟨"hello"⟩]⟩]⟩ := by
  refine ⟨?_, ?_, by decide⟩
  · intro prompt history hp
    exact GeminiService.prepareChatPayload_explicit history hp
  · intro prompt messages instructions h last hp hhist hrole
    have hmem : last ∈ (GeminiService.mapMessagesToHistory messages instructions).1 := by
      rw [hhist]
      exact List.mem_append.mpr (Or.inr (List.mem_singleton.mpr rfl))
    rcases GeminiService.mapMessagesToHistoryAux_mem messages [] instructions last hmem with
      hin | ⟨t, hpt, htr, hne⟩
    · simp at hin
    · refine ⟨t, hpt, ?_⟩
      exact GeminiService.prepareChatPayload_pop h last hp hrole
        (GeminiService.firstTextPart_of_parts hpt htr hne) hne

/-- Witness for C1: the spec's second example (`prompt = "explain X"`,
`messages = [{user,"unused"}]`) keeps the history unpopped, via conjunct (1)
of the theorem at that concrete input. -/
theorem C1_next_prompt_tiebreak_witness :
    GeminiService.prepareChatPayload "explain X"
        [⟨GeminiService.TurnRole.user, [⟨"unused"⟩]⟩] =
      Except.ok ⟨"explain X", [⟨GeminiService.TurnRole.user, [⟨"unused"⟩]⟩]⟩ := by
  have h := C1_next_prompt_tiebreak.1 "explain X"
    [⟨GeminiService.TurnRole.user, [⟨"unused"⟩]⟩] (by decide)
  exact h.trans (by decide)

/-- C2 counterexample: on a structurally successful local-adapter response
matching no known extraction shape, the result's `text` is the empty string
(a present value), not `undefined`, refuting the claim for
`extractChatChoiceText`. -/
theorem C2_counterexample :
    LmStudioService.extractedResult "local-model" ⟨[], none, none⟩ =
      ⟨"local-model", some ""⟩
    ∧ (LmStudioService.extractedResult "local-model" ⟨[], none, none⟩).text ≠ none := by
  decide

/-- C2 (amended): a structurally successful provider response matching no
known extraction shape is not an error in either adapter; the cloud adapter
yields `{model, text: undefined}`, while the local adapter yields
`{model, text: ""}` (its final `||` fallback is the empty string, a present
value). -/
theorem C2_unrecognized_shape_silent :
    (∀ (modelName : String) (raw : GeminiService.GeminiRaw),
      raw.output_text = none → raw.responseTextCall = none →
      raw.textCall = none → raw.candidateText = none →
      raw.responseCandidateText = none →
      GeminiService.extractedResult modelName raw = ⟨modelName, none⟩)
    ∧ (∀ (modelName : String) (raw : LmStudioService.LmRaw),
      raw.choices = [] → raw.output_text = none → raw.text = none →
      LmStudioService.extractedResult modelName raw = ⟨modelName, some ""⟩) := by
  constructor
  · intro modelName raw h1 h2 h3 h4 h5
    simp [GeminiService.extractedResult, GeminiService.extractText,
      h1, h2, h3, h4, h5, Option.orElse]
  · intro modelName raw h1 h2 h3
    simp [LmStudioService.extractedResult, LmStudioService.extractChatChoiceText,
      LmStudioService.lmFallbackText, h1, h2, h3, jsOrStr]

/-- Witness for C2: both conjuncts applied at concrete unrecognized raws. -/
theorem C2_unrecognized_shape_silent_witness :
    GeminiService.extractedResult "gemini-1.5-flash" ⟨none, none, none, none, none⟩ =
      ⟨"gemini-1.5-flash", none⟩
    ∧ LmStudioService.extractedResult "qwen" ⟨[], none, none⟩ = ⟨"qwen", some ""⟩ :=
  ⟨C2_unrecognized_shape_silent.1 "gemini-1.5-flash" ⟨none, none, none, none, none⟩
      rfl rfl rfl rfl rfl,
   C2_unrecognized_shape_silent.2 "qwen" ⟨[], none, none⟩ rfl rfl rfl⟩

/-- C3: a request with neither a non-blank prompt nor any non-blank
user-role message is rejected at the boundary with the 400
`BadRequestException` "prompt is required (string)" (a client error, not a
server error) and is never dispatched to an adapter. -/
theorem C3_no_resolvable_prompt_rejected :
    ∀ (body : GeminiController.ChatBody) (defaultProviderEnv : Option String),
      (∀ p, body.prompt = some p → jsTrim p = "") →
      (∀ ms, body.messages = some ms →
        ∀ m ∈ ms, m.role = Role.user → jsTrim m.content = "") →
      GeminiController.chatWithGemini body defaultProviderEnv =
        Except.error (HttpError.badRequest "prompt is required (string)") := by
  intro body defaultProviderEnv hprompt huser
  have heff : GeminiController.resolveEffectivePrompt body = "" := by
    have htp : (match body.prompt with | some p => jsTrim p | none => "") = "" := by
      cases hbp : body.prompt with
      | none => rfl
      | some p => exact hprompt p hbp
    simp only [GeminiController.resolveEffectivePrompt, htp, ne_eq,
      not_true_eq_false, if_false]
    cases hbm : body.messages with
    | none => rfl
    | some ms =>
      simp only
      cases hf : ms.reverse.find? (fun m => m.role == Role.user) with
      | none => rfl
      | some lu =>
        have hmem : lu ∈ ms := List.mem_reverse.mp (List.mem_of_find?_eq_some hf)
        have hb := List.find?_some hf
        have hrole : lu.role = Role.user := by
          change (lu.role == Role.user) = true at hb
          cases hr : lu.role with
          | user => rfl
          | assistant => rw [hr] at hb; exact absurd hb (by decide)
          | system => rw [hr] at hb; exact absurd hb (by decide)
        have hluc : jsTrim lu.content = "" := huser ms hbm lu hmem hrole
        simp only [hluc]
        split <;> rfl
  simp [GeminiController.chatWithGemini, heff]

/-- Witness for C3: a blank prompt together with one blank user message is
rejected. -/
theorem C3_no_resolvable_prompt_rejected_witness :
    GeminiController.chatWithGemini
        ⟨some "  ", some [⟨Role.user, "   "⟩], none, none, none⟩ none =
      Except.error (HttpError.badRequest "prompt is required (string)") :=
  C3_no_resolvable_prompt_rejected
    ⟨some "  ", some [⟨Role.user, "   "⟩], none, none, none⟩ none
    (fun p hp => by cases hp; decide)
    (fun ms hms m hm _ => by
      cases hms
      rw [List.mem_singleton.mp hm]
      decide)

/-- A trailing blank-content message is skipped by the history loop. -/
theorem GeminiService.mapMessagesToHistoryAux_append_blank
    {m : ChatMessageDto} (hm : jsTrim m.content = "") :
    ∀ (messages : List ChatMessageDto)
      (hist : List GeminiService.ChatContent) (instr : List String),
      GeminiService.mapMessagesToHistoryAux (messages ++ [m]) hist instr =
        GeminiService.mapMessagesToHistoryAux messages hist instr := by
  intro messages
  induction messages with
  | nil =>
    intro hist instr
    simp [GeminiService.mapMessagesToHistoryAux, hm]
  | cons x rest ih =>
    intro hist instr
    rw [List.cons_append, GeminiService.mapMessagesToHistoryAux,
      GeminiService.mapMessagesToHistoryAux]
    by_cases hx : jsTrim x.content = ""
    · rw [if_pos hx, if_pos hx]
      exact ih _ _
    · rw [if_neg hx, if_neg hx]
      cases x.role <;> exact ih _ _

/-- C4 counterexample: at the HTTP boundary the claim fails. With
`prompt` absent and `messages = [{user,"hi"},{user," "}]` the request is
rejected (the last-user-message lookup finds the trailing blank entry and
derives an empty prompt), while the same request without the trailing blank
entry dispatches successfully — so the trailing blank entry does change the
outcome. -/
theorem C4_counterexample :
    GeminiController.chatWithGemini
        ⟨none, some [⟨Role.user, "hi"⟩, ⟨Role.user, " "⟩], none, none, none⟩ none =
      Except.error (HttpError.badRequest "prompt is required (string)")
    ∧ GeminiController.chatWithGemini
        ⟨none, some [⟨Role.user, "hi"⟩], none, none, none⟩ none =
      Except.ok ⟨false, ⟨some "hi", some [⟨Role.user, "hi"⟩], none, none⟩⟩ := by
  decide

/-- C4 (amended): in the service-level reconciliation
(`mapMessagesToHistory` and `prepareChatPayload` over it) a trailing
blank-content entry is dropped and has no effect on the outcome; at the
HTTP boundary, however, a trailing blank user-role entry can change the
outcome, because the boundary's prompt derivation picks the last user-role
message regardless of blankness. -/
theorem C4_trailing_blank_dropped_in_service :
    ∀ (messages : List ChatMessageDto) (m : ChatMessageDto)
      (instructions : List String) (prompt : String),
      jsTrim m.content = "" →
      GeminiService.mapMessagesToHistory (messages ++ [m]) instructions =
        GeminiService.mapMessagesToHistory messages instructions
      ∧ GeminiService.prepareChatPayload prompt
          (GeminiService.mapMessagesToHistory (messages ++ [m]) instructions).1 =
        GeminiService.prepareChatPayload prompt
          (GeminiService.mapMessagesToHistory messages instructions).1 := by
  intro messages m instructions prompt hm
  have h : GeminiService.mapMessagesToHistory (messages ++ [m]) instructions =
      GeminiService.mapMessagesToHistory messages instructions :=
    GeminiService.mapMessagesToHistoryAux_append_blank hm messages [] instructions
  exact ⟨h, by rw [h]⟩

/-- Witness for C4 (amended): dropping the blank trailing entry of the
spec's example leaves the reconciled history and payload unchanged. -/
theorem C4_trailing_blank_dropped_in_service_witness :
    GeminiService.mapMessagesToHistory
        ([⟨Role.user, "hi"⟩, ⟨Role.assistant, "hello"⟩] ++ [⟨Role.user, "  "⟩]) [] =
      GeminiService.mapMessagesToHistory
        [⟨Role.user, "hi"⟩, ⟨Role.assistant, "hello"⟩] []
    ∧ GeminiService.prepareChatPayload "ok"
        (GeminiService.mapMessagesToHistory
          ([⟨Role.user, "hi"⟩, ⟨Role.assistant, "hello"⟩] ++ [⟨Role.user, "  "⟩]) []).1 =
      GeminiService.prepareChatPayload "ok"
        (GeminiService.mapMessagesToHistory
          [⟨Role.user, "hi"⟩, ⟨Role.assistant, "hello"⟩] []).1 :=
  C4_trailing_blank_dropped_in_service
    [⟨Role.user, "hi"⟩, ⟨Role.assistant, "hello"⟩] ⟨Role.user, "  "⟩ [] "ok"
    (by decide)

/-- Padded base64 length: four characters per started three-byte group. -/
theorem LmStudioService.base64EncodeChars_length :
    ∀ (l : List Nat),
      (LmStudioService.base64EncodeChars l).length = 4 * ((l.length + 2) / 3)
  | [] => by simp [LmStudioService.base64EncodeChars]
  | [_] => by simp [LmStudioService.base64EncodeChars]
  | [_, _] => by simp [LmStudioService.base64EncodeChars]
  | _ :: _ :: _ :: rest => by
    have ih := LmStudioService.base64EncodeChars_length rest
    simp [LmStudioService.base64EncodeChars, ih]
    omega

set_option maxRecDepth 4096 in
/-- C5 counterexample: a 100-byte `image/png` attachment is rendered with
`136 bytes` (the length of its base64-encoded `data` string), not
`100 bytes` (the byte length of the original payload) as claimed. -/
theorem C5_counterexample :
    LmStudioService.coercePartsToText
        [LmStudioService.buildInlineDataPart (List.replicate 100 0) "image/png"] =
      "[Attachment: image/png, 136 bytes; content omitted in local text-only mode]"
    ∧ LmStudioService.coercePartsToText
        [LmStudioService.buildInlineDataPart (List.replicate 100 0) "image/png"] ≠
      "[Attachment: image/png, 100 bytes; content omitted in local text-only mode]" := by
  decide

set_option maxRecDepth 4096 in
/-- C5 (amended): `coercePartsToText` applied to the empty parts sequence
returns the sentinel `"(no content)"`; applied to a binary part built by
`buildInlineDataPart` it emits exactly the placeholder
`"[Attachment: <mimeType>, <n> bytes; content omitted in local text-only
mode]"` where `<n>` is the length of the base64-encoded data string,
`4 * ⌈byteLength / 3⌉` (136 for a 100-byte payload, as in the concrete
two-block example), with blocks blank-separated. -/
theorem C5_render_parts_as_text :
    LmStudioService.coercePartsToText [] = "(no content)"
    ∧ (∀ (buffer : List Nat) (mimeType : String), mimeType ≠ "" →
        LmStudioService.coercePartsToText
            [LmStudioService.buildInlineDataPart buffer mimeType] =
          "[Attachment: " ++ mimeType ++ ", "
            ++ toString (4 * ((buffer.length + 2) / 3))
            ++ " bytes; content omitted in local text-only mode]")
    ∧ LmStudioService.coercePartsToText
        [⟨some "a", none⟩,
         LmStudioService.buildInlineDataPart (List.replicate 100 0) "image/png"] =
      "a\n\n[Attachment: image/png, 136 bytes; content omitted in local text-only mode]" := by
  refine ⟨rfl, ?_, by decide⟩
  intro buffer mimeType hmime
  have hlen : (String.mk (LmStudioService.base64EncodeChars buffer)).length =
      4 * ((buffer.length + 2) / 3) :=
    LmStudioService.base64EncodeChars_length buffer
  show LmStudioService.coerceBinaryLine
      (LmStudioService.buildInlineDataPart buffer mimeType) = _
  unfold LmStudioService.coerceBinaryLine LmStudioService.buildInlineDataPart
  simp only [Option.some_bind, jsOrStr, hmime]
  rw [if_pos hmime, hlen]

/-- Witness for C5 (amended): a 10-byte payload renders with `16 bytes`. -/
theorem C5_render_parts_as_text_witness :
    LmStudioService.coercePartsToText
        [LmStudioService.buildInlineDataPart (List.replicate 10 7) "image/png"] =
      "[Attachment: image/png, 16 bytes; content omitted in local text-only mode]" := by
  have h := C5_render_parts_as_text.2.1 (List.replicate 10 7) "image/png" (by decide)
  exact h.trans (by decide)

/-- C6: the routing predicate selects exactly one adapter. A selector that
lower-cases to `"lmstudio"` selects the local adapter regardless of the
configured default; with no selector, the local adapter is selected exactly
when the `DEFAULT_PROVIDER` environment value lower-cases to `"lmstudio"`,
and the cloud adapter otherwise (including when no default is configured). -/
theorem C6_provider_routing :
    (∀ (p : String) (defaultProviderEnv : Option String),
      jsToLower p = "lmstudio" →
      GeminiController.shouldUseLmStudio (some p) defaultProviderEnv = true)
    ∧ (∀ (defaultProviderEnv : Option String),
      defaultProviderEnv.map jsToLower ≠ some "lmstudio" →
      GeminiController.shouldUseLmStudio none defaultProviderEnv = false)
    ∧ (∀ (d : String), jsToLower d = "lmstudio" →
      GeminiController.shouldUseLmStudio none (some d) = true) := by
  refine ⟨?_, ?_, ?_⟩
  · intro p defaultProviderEnv hp
    simp [GeminiController.shouldUseLmStudio, hp]
  · intro defaultProviderEnv hd
    simp [GeminiController.shouldUseLmStudio, hd]
  · intro d hd
    simp [GeminiController.shouldUseLmStudio, hd]

/-- Witness for C6: `"LMStudio"` forces the local adapter against a `gemini`
default; no selector and no default select the cloud adapter; no selector
with default `"LmStudio"` selects the local adapter. -/
theorem C6_provider_routing_witness :
    GeminiController.shouldUseLmStudio (some "LMStudio") (some "gemini") = true
    ∧ GeminiController.shouldUseLmStudio none none = false
    ∧ GeminiController.shouldUseLmStudio none (some "LmStudio") = true :=
  ⟨C6_provider_routing.1 "LMStudio" (some "gemini") (by decide),
   C6_provider_routing.2.1 none (by decide),
   C6_provider_routing.2.2 "LmStudio" (by decide)⟩

/-- C7 counterexample: on the main chat route a non-empty provider selector
matching no known provider (`"openai"`) is not rejected: the request is
dispatched to the cloud adapter. -/
theorem C7_counterexample :
    GeminiController.chatWithGemini
        ⟨some "hi", none, none, none, some "openai"⟩ none =
      Except.ok ⟨false, ⟨some "hi", none, none, none⟩⟩ := by
  decide

/-- C7 (amended): only the `/lm`-prefixed routes' guard rejects an
unrecognized non-empty selector, with the 400 `BadRequestException`
`Invalid provider for this route: expected "lmstudio".`, before any
dispatch; on the main routes an unrecognized non-empty selector is not
validated and the request is dispatched to the cloud adapter. -/
theorem C7_unsupported_provider :
    (∀ (p : String), p ≠ "" → jsToLower p ≠ "lmstudio" →
      LmStudioController.ensureProviderIsLmStudio (some p) =
        Except.error (HttpError.badRequest
          "Invalid provider for this route: expected \"lmstudio\"."))
    ∧ (∀ (body : GeminiController.ChatBody) (defaultProviderEnv : Option String)
        (p : String) (d : GeminiController.Dispatch),
      body.provider = some p → jsToLower p ≠ "" → jsToLower p ≠ "lmstudio" →
      GeminiController.chatWithGemini body defaultProviderEnv = Except.ok d →
      d.useLm = false) := by
  constructor
  · intro p hne hlower
    simp [LmStudioController.ensureProviderIsLmStudio, hne, hlower]
  · intro body defaultProviderEnv p d hprov hne hlower hok
    have huse : GeminiController.shouldUseLmStudio body.provider defaultProviderEnv
        = false := by
      rw [hprov]
      simp [GeminiController.shouldUseLmStudio, hne, hlower]
    unfold GeminiController.chatWithGemini at hok
    by_cases heff : GeminiController.resolveEffectivePrompt body = ""
    · rw [if_pos heff] at hok
      cases hok
    · rw [if_neg heff] at hok
      injection hok with hd
      rw [← hd]
      exact huse

/-- Witness for C7 (amended): `"openai"` is rejected on the `/lm` route; a
dispatched main-route request with selector `"gpt4"` went to the cloud
adapter. -/
theorem C7_unsupported_provider_witness :
    LmStudioController.ensureProviderIsLmStudio (some "openai") =
      Except.error (HttpError.badRequest
        "Invalid provider for this route: expected \"lmstudio\".")
    ∧ (⟨false, ⟨some "hi", none, none, none⟩⟩ : GeminiController.Dispatch).useLm
        = false :=
  ⟨C7_unsupported_provider.1 "openai" (by decide) (by decide),
   C7_unsupported_provider.2 ⟨some "hi", none, none, none, some "gpt4"⟩ none
     "gpt4" ⟨false, ⟨some "hi", none, none, none⟩⟩ rfl (by decide) (by decide)
     (by decide)⟩

/-- C8 counterexample: when both SDK imports fail, the raised error's message
names both packages but carries only the secondary (legacy) attempt's failure
message; the primary attempt's message does not occur in it, refuting
"carries both underlying failure messages". -/
theorem C8_counterexample :
    GeminiService.ensureClient
        ⟨some "key", none,
         GeminiService.ImportOutcome.failed "primary boom",
         GeminiService.ImportOutcome.failed "secondary boom"⟩
        GeminiService.ClientState.initial =
      Except.error (HttpError.internalServerError
        "Failed to initialize Gemini client from either @google/genai or @google/generative-ai: secondary boom")
    ∧ hasSubstring
        "Failed to initialize Gemini client from either @google/genai or @google/generative-ai: secondary boom"
        "primary boom" = false := by
  decide

/-- C8 (amended): client acquisition on first invocation tries the primary
`@google/genai` surface, then on failure or unexpected shape the legacy
`@google/generative-ai` surface, recording the chosen surface as the
adapter's mode; when both fail the call fails with a server-side
configuration error whose message names both packages and carries the
secondary attempt's failure message (the primary attempt's message is only
logged); once a client handle exists the call returns it unchanged, so the
handle is constructed at most once and never reset. -/
theorem C8_client_acquisition :
    (∀ (env : GeminiService.SdkEnv) (st : GeminiService.ClientState),
      st.client.isSome →
      GeminiService.ensureClient env st = Except.ok st)
    ∧ (∀ (env : GeminiService.SdkEnv) (m : GeminiService.GenaiModule),
      env.genaiImport = GeminiService.ImportOutcome.loaded m → m.hasCtor = true →
      optTruthy (jsOrOpt env.geminiApiKey env.googleApiKey) = true →
      GeminiService.ensureClient env GeminiService.ClientState.initial =
        Except.ok ⟨some GeminiService.ClientHandle.genaiCtor,
                   some GeminiService.ClientMode.genai⟩)
    ∧ (∀ (env : GeminiService.SdkEnv) (gmsg : String)
        (lm : GeminiService.LegacyModule),
      env.genaiImport = GeminiService.ImportOutcome.failed gmsg →
      env.legacyImport = GeminiService.ImportOutcome.loaded lm →
      lm.hasCtorFunction = true →
      optTruthy (jsOrOpt env.geminiApiKey env.googleApiKey) = true →
      GeminiService.ensureClient env GeminiService.ClientState.initial =
        Except.ok ⟨some GeminiService.ClientHandle.legacyCtor,
                   some GeminiService.ClientMode.generativeAi⟩)
    ∧ (∀ (env : GeminiService.SdkEnv) (gmsg lmsg : String),
      env.genaiImport = GeminiService.ImportOutcome.failed gmsg →
      env.legacyImport = GeminiService.ImportOutcome.failed lmsg →
      optTruthy (jsOrOpt env.geminiApiKey env.googleApiKey) = true →
      GeminiService.ensureClient env GeminiService.ClientState.initial =
        Except.error (HttpError.internalServerError
          ("Failed to initialize Gemini client from either @google/genai or @google/generative-ai: "
            ++ lmsg))) := by
  refine ⟨?_, ?_, ?_, ?_⟩
  · intro env st hsome
    simp [GeminiService.ensureClient, hsome]
  · intro env m hgen hctor hkey
    simp [GeminiService.ensureClient, GeminiService.ClientState.initial,
      hgen, hctor, hkey]
  · intro env gmsg lm hgen hleg hctor hkey
    simp [GeminiService.ensureClient, GeminiService.tryLegacyClient,
      GeminiService.ClientState.initial, hgen, hleg, hctor, hkey]
  · intro env gmsg lmsg hgen hleg hkey
    simp [GeminiService.ensureClient, GeminiService.tryLegacyClient,
      GeminiService.ClientState.initial, hgen, hleg, hkey]

/-- Witness for C8 (amended): all four conjuncts at concrete environments —
a memoized state is returned unchanged; a working primary surface commits
mode `genai`; a failed primary with working legacy commits mode
`generative-ai`; a double failure raises the combined-package message with
the legacy failure text. -/
theorem C8_client_acquisition_witness :
    GeminiService.ensureClient
        ⟨none, none, GeminiService.ImportOutcome.failed "x",
         GeminiService.ImportOutcome.failed "y"⟩
        ⟨some GeminiService.ClientHandle.genaiCtor, some GeminiService.ClientMode.genai⟩ =
      Except.ok ⟨some GeminiService.ClientHandle.genaiCtor,
                 some GeminiService.ClientMode.genai⟩
    ∧ GeminiService.ensureClient
        ⟨some "k", none, GeminiService.ImportOutcome.loaded ⟨true, false⟩,
         GeminiService.ImportOutcome.failed "y"⟩
        GeminiService.ClientState.initial =
      Except.ok ⟨some GeminiService.ClientHandle.genaiCtor,
                 some GeminiService.ClientMode.genai⟩
    ∧ GeminiService.ensureClient
        ⟨none, some "k2", GeminiService.ImportOutcome.failed "no primary",
         GeminiService.ImportOutcome.loaded ⟨true⟩⟩
        GeminiService.ClientState.initial =
      Except.ok ⟨some GeminiService.ClientHandle.legacyCtor,
                 some GeminiService.ClientMode.generativeAi⟩
    ∧ GeminiService.ensureClient
        ⟨some "k", none, GeminiService.ImportOutcome.failed "no primary",
         GeminiService.ImportOutcome.failed "no legacy"⟩
        GeminiService.ClientState.initial =
      Except.error (HttpError.internalServerError
        ("Failed to initialize Gemini client from either @google/genai or @google/generative-ai: "
          ++ "no legacy")) :=
  ⟨C8_client_acquisition.1
      ⟨none, none, GeminiService.ImportOutcome.failed "x",
       GeminiService.ImportOutcome.failed "y"⟩
      ⟨some GeminiService.ClientHandle.genaiCtor, some GeminiService.ClientMode.genai⟩
      rfl,
   C8_client_acquisition.2.1
      ⟨some "k", none, GeminiService.ImportOutcome.loaded ⟨true, false⟩,
       GeminiService.ImportOutcome.failed "y"⟩
      ⟨true, false⟩ rfl rfl (by decide),
   C8_client_acquisition.2.2.1
      ⟨none, some "k2", GeminiService.ImportOutcome.failed "no primary",
       GeminiService.ImportOutcome.loaded ⟨true⟩⟩
      "no primary" ⟨true⟩ rfl rfl rfl (by decide),
   C8_client_acquisition.2.2.2
      ⟨some "k", none, GeminiService.ImportOutcome.failed "no primary",
       GeminiService.ImportOutcome.failed "no legacy"⟩
      "no primary" "no legacy" rfl rfl (by decide)⟩


/-- Membership from `getLast?`. -/
theorem mem_of_getLast?_eq_some {α : Type} {l : List α} {a : α}
    (h : l.getLast? = some a) : a ∈ l := by
  have hx : a ∈ l.getLast? := by rw [h]; rfl
  rcases List.mem_getLast?_eq_getLast hx with ⟨hne, heq⟩
  rw [heq]
  exact List.getLast_mem hne

/-- C9: an LM Studio chat request reaching the boundary with no explicit
prompt whose last user-role message has non-blank content sends that
message's content to the provider twice: the boundary derives the prompt
from the last user message while forwarding the full message list, and
`composeChatMessages` maps the whole history (retaining the trailing user
entry) and then appends the derived prompt as a further user message. -/
theorem C9_lmstudio_duplicated_user_turn :
    ∀ (pre post : List ChatMessageDto) (m : ChatMessageDto)
      (modelField sysInstr defaultProviderEnv : Option String),
      m.role = Role.user → jsTrim m.content ≠ "" →
      (∀ x ∈ post, x.role ≠ Role.user) →
      GeminiController.chatWithGemini
          ⟨none, some (pre ++ m :: post), modelField, sysInstr, some "lmstudio"⟩
          defaultProviderEnv =
        Except.ok ⟨true, ⟨some (jsTrim m.content), some (pre ++ m :: post),
                          modelField, sysInstr⟩⟩
      ∧ 2 ≤ (LmStudioService.chatSentMessages
            ⟨some (jsTrim m.content), some (pre ++ m :: post),
             modelField, sysInstr⟩).countP
          (fun e => e = (⟨"user", jsTrim m.content⟩ : LmStudioService.LmMessage)) := by
  intro pre post m modelField sysInstr defaultProviderEnv hrole hne hpost
  have hcontent : m.content ≠ "" := ne_empty_of_jsTrim_ne_empty hne
  have hfind : (pre ++ m :: post).reverse.find? (fun x => x.role == Role.user) =
      some m := by
    rw [List.reverse_append, List.reverse_cons, List.find?_append, List.find?_append]
    have hnone : post.reverse.find? (fun x => x.role == Role.user) = none := by
      rw [List.find?_eq_none]
      intro x hx hbeq
      have hxp : x ∈ post := List.mem_reverse.mp hx
      have hxu : x.role = Role.user := by
        change (x.role == Role.user) = true at hbeq
        cases hr : x.role with
        | user => rfl
        | assistant => rw [hr] at hbeq; exact absurd hbeq (by decide)
        | system => rw [hr] at hbeq; exact absurd hbeq (by decide)
      exact hpost x hxp hxu
    have hm : List.find? (fun x => x.role == Role.user) [m] = some m :=
      List.find?_cons_of_pos _ (by change (m.role == Role.user) = true; rw [hrole]; rfl)
    rw [hnone, hm]
    rfl
  have heff : GeminiController.resolveEffectivePrompt
      ⟨none, some (pre ++ m :: post), modelField, sysInstr, some "lmstudio"⟩ =
      jsTrim m.content := by
    simp only [GeminiController.resolveEffectivePrompt, hfind]
    simp [hcontent]
  have hlow : jsToLower "lmstudio" = "lmstudio" := by decide
  have huse : GeminiController.shouldUseLmStudio (some "lmstudio")
      defaultProviderEnv = true := by
    simp [GeminiController.shouldUseLmStudio, hlow]
  constructor
  · unfold GeminiController.chatWithGemini
    rw [heff, if_neg hne, huse]
  · have hfm : LmStudioService.mapHistoryEntry m =
        some ⟨"user", jsTrim m.content⟩ := by
      simp [LmStudioService.mapHistoryEntry, hne, hrole, LmStudioService.mapRole]
    have hlatest : LmStudioService.latestPromptMessages (some (jsTrim m.content)) =
        [⟨"user", jsTrim m.content⟩] := by
      simp [LmStudioService.latestPromptMessages, jsTrim_idem, hne]
    have hbase : LmStudioService.composeChatMessagesBase (pre ++ m :: post)
        sysInstr (some (jsTrim m.content)) =
        LmStudioService.systemInstructionMessages sysInstr
          ++ (pre.filterMap LmStudioService.mapHistoryEntry
              ++ (⟨"user", jsTrim m.content⟩ : LmStudioService.LmMessage)
                :: post.filterMap LmStudioService.mapHistoryEntry)
          ++ [⟨"user", jsTrim m.content⟩] := by
      unfold LmStudioService.composeChatMessagesBase
      rw [List.filterMap_append, List.filterMap_cons, hfm, hlatest]
    have hanyuser : (LmStudioService.composeChatMessagesBase (pre ++ m :: post)
        sysInstr (some (jsTrim m.content))).any
          (fun mm => mm.role == "user") = true := by
      rw [hbase]
      simp [List.any_append]
    have hsent : LmStudioService.chatSentMessages
        ⟨some (jsTrim m.content), some (pre ++ m :: post), modelField, sysInstr⟩ =
        LmStudioService.composeChatMessagesBase (pre ++ m :: post) sysInstr
          (some (jsTrim m.content)) := by
      simp only [LmStudioService.chatSentMessages, LmStudioService.composeChatMessages,
        Option.getD_some]
      rw [if_pos hanyuser]
    have hone : List.countP
        (fun e => decide (e = (⟨"user", jsTrim m.content⟩ : LmStudioService.LmMessage)))
        [(⟨"user", jsTrim m.content⟩ : LmStudioService.LmMessage)] = 1 := by
      simp
    have hcons : ∀ (l : List LmStudioService.LmMessage),
        List.countP
          (fun e => decide (e = (⟨"user", jsTrim m.content⟩ : LmStudioService.LmMessage)))
          ((⟨"user", jsTrim m.content⟩ : LmStudioService.LmMessage) :: l) =
        List.countP
          (fun e => decide (e = (⟨"user", jsTrim m.content⟩ : LmStudioService.LmMessage)))
          l + 1 := by
      intro l
      simp [List.countP_cons]
    rw [hsent, hbase, List.countP_append, List.countP_append, List.countP_append,
      hcons, hone]
    omega

/-- Witness for C9: the single-message request `{user,"hi"}` with no prompt
and provider `lmstudio` is dispatched to the local adapter with the derived
prompt, and the composed provider message list counts the user turn twice. -/
theorem C9_lmstudio_duplicated_user_turn_witness :
    GeminiController.chatWithGemini
        ⟨none, some [⟨Role.user, "hi"⟩], none, none, some "lmstudio"⟩ none =
      Except.ok ⟨true, ⟨some (jsTrim "hi"), some [⟨Role.user, "hi"⟩], none, none⟩⟩
    ∧ 2 ≤ (LmStudioService.chatSentMessages
          ⟨some (jsTrim "hi"), some [⟨Role.user, "hi"⟩], none, none⟩).countP
        (fun e => e = (⟨"user", jsTrim "hi"⟩ : LmStudioService.LmMessage)) :=
  C9_lmstudio_duplicated_user_turn [] [] ⟨Role.user, "hi"⟩ none none none rfl
    (by decide) (by simp)

/-- C10: every message list the local adapter composes contains at least one
user-role message; when neither the mapped history, the system instruction,
nor the supplied prompt contributes one, the placeholder user message
`"Please respond to the conversation above."` is appended as the final
entry. -/
theorem C10_at_least_one_user_message :
    ∀ (history : List ChatMessageDto) (sysInstr latestPrompt : Option String),
      (LmStudioService.composeChatMessages history sysInstr latestPrompt).any
        (fun m => m.role == "user") = true
      ∧ ((LmStudioService.composeChatMessagesBase history sysInstr latestPrompt).any
            (fun m => m.role == "user") = false →
          LmStudioService.composeChatMessages history sysInstr latestPrompt =
            LmStudioService.composeChatMessagesBase history sysInstr latestPrompt
              ++ [LmStudioService.placeholderUserMessage]) := by
  intro history sysInstr latestPrompt
  have hb : (LmStudioService.composeChatMessagesBase history sysInstr
      latestPrompt).any (fun m => m.role == "user") = false →
      LmStudioService.composeChatMessages history sysInstr latestPrompt =
        LmStudioService.composeChatMessagesBase history sysInstr latestPrompt
          ++ [LmStudioService.placeholderUserMessage] := by
    intro hnouser
    simp only [LmStudioService.composeChatMessages]
    rw [if_neg (by rw [hnouser]; exact Bool.false_ne_true)]
    cases hlast : (LmStudioService.composeChatMessagesBase history sysInstr
        latestPrompt).getLast? with
    | none => rfl
    | some last =>
      have hmem := mem_of_getLast?_eq_some hlast
      have hlr : ¬ (last.role == "user") = true := by
        intro htrue
        have hany : (LmStudioService.composeChatMessagesBase history sysInstr
            latestPrompt).any (fun m => m.role == "user") = true :=
          List.any_eq_true.mpr ⟨last, hmem, htrue⟩
        rw [hnouser] at hany
        exact Bool.false_ne_true hany
      have hner : last.role ≠ "user" := by
        intro h
        exact hlr (by rw [h]; simp)
      simp [hner]
  refine ⟨?_, hb⟩
  by_cases hany : (LmStudioService.composeChatMessagesBase history sysInstr
      latestPrompt).any (fun m => m.role == "user") = true
  · have heq : LmStudioService.composeChatMessages history sysInstr latestPrompt =
        LmStudioService.composeChatMessagesBase history sysInstr latestPrompt := by
      simp only [LmStudioService.composeChatMessages]
      rw [if_pos hany]
    rw [heq]
    exact hany
  · have hfalse : (LmStudioService.composeChatMessagesBase history sysInstr
        latestPrompt).any (fun m => m.role == "user") = false :=
      Bool.eq_false_iff.mpr hany
    rw [hb hfalse]
    simp [List.any_append, LmStudioService.placeholderUserMessage]

/-- Witness for C10: a single assistant turn with no prompt gets the
placeholder user message appended. -/
theorem C10_at_least_one_user_message_witness :
    (LmStudioService.composeChatMessages [⟨Role.assistant, "hello"⟩] none none).any
      (fun m => m.role == "user") = true
    ∧ LmStudioService.composeChatMessages [⟨Role.assistant, "hello"⟩] none none =
        LmStudioService.composeChatMessagesBase [⟨Role.assistant, "hello"⟩] none none
          ++ [LmStudioService.placeholderUserMessage] :=
  ⟨(C10_at_least_one_user_message [⟨Role.assistant, "hello"⟩] none none).1,
   (C10_at_least_one_user_message [⟨Role.assistant, "hello"⟩] none none).2
     (by decide)⟩
